import Mathlib

/-
Verification development for the telegram-task-bot repository
(src/bot.py, src/db.py): a shallow embedding of the task store,
the reminder scheduler, the smart reminder planner, the
time-disambiguation flow, and the startup recovery logic, together
with theorems settling the behavioural claims about them.

Time is modelled as an integer number of seconds (minute offsets from
the code are multiplied by 60, the 10-second boot debounce is +10).
-/

namespace TaskBot

/-- A stored task row, following the schema of the tasks table in db.py:
id (AUTOINCREMENT), user_id, title, due_date (a string of the shape
YYYY-MM-DD HH:MM), original_text, remind_before (minutes, default 30),
is_done (default 0).  Note that the table has no category column. -/
structure Task where
  id : Nat
  user_id : Nat
  title : String
  due_date : String
  original_text : String
  remind_before : Nat
  is_done : Bool
deriving Repr, DecidableEq

abbrev Db := List Task

/-- db.get_task: SELECT * FROM tasks WHERE id = ? AND user_id = ?, first row or None. -/
def get_task (db : Db) (task_id user_id : Nat) : Option Task :=
  db.find? (fun t => t.id == task_id && t.user_id == user_id)

/-- db.get_all_active_tasks: SELECT * FROM tasks WHERE is_done = 0. -/
def get_all_active_tasks (db : Db) : List Task :=
  db.filter (fun t => !t.is_done)

/-- db.add_task: INSERT INTO tasks (user_id, title, due_date, original_text,
remind_before) VALUES (?,?,?,?,?), returning cursor.lastrowid; the
AUTOINCREMENT id is modelled as one more than the largest id in use. -/
def add_task (db : Db) (user_id : Nat) (title due_date original_text : String)
    (remind_before : Nat) : Db × Nat :=
  let tid := (db.map Task.id).foldr max 0 + 1
  (db ++ [⟨tid, user_id, title, due_date, original_text, remind_before, false⟩], tid)

/-- An apscheduler job as installed by bot.py: a DateTrigger run date and
the args [task_id, user_id, title] passed to send_reminder. -/
structure Job where
  fire_at : Int
  task_id : Nat
  user_id : Nat
  title : String
deriving Repr, DecidableEq

/-- The scheduler job table: job id string to job.  The program only ever
installs one job per id (replace_existing=True). -/
abbrev Sched := List (String × Job)

/-- scheduler.get_job(job_id). -/
def get_job (s : Sched) (jid : String) : Option Job :=
  (s.find? (fun p => p.1 == jid)).map Prod.snd

/-- scheduler.remove_job(job_id) once the job is known to exist: drop
every entry stored under that id. -/
def remove_job (s : Sched) (jid : String) : Sched :=
  s.filter (fun p => !(p.1 == jid))

/-- scheduler.add_job(..., id=job_id, replace_existing=True). -/
def add_job (s : Sched) (jid : String) (j : Job) : Sched :=
  (jid, j) :: remove_job s jid

/-- A Telegram message produced by send_reminder: recipient, the title
passed in the job args, and the due_date re-read from the store. -/
structure SentMsg where
  user_id : Nat
  title : String
  due_date : String
deriving Repr, DecidableEq

/-- An entry of the pending_tasks dict in bot.py, keyed by user id. -/
structure Pending where
  title : String
  date : String
  category : String
  task_type : String
  original_text : String
deriving Repr, DecidableEq

/-- The mutable state of the bot process: the sqlite tasks table, the
apscheduler job table, the pending_tasks dict, the log of send_reminder
invocations (task_id, user_id) and the log of actually delivered
reminder messages. -/
structure BotState where
  db : Db
  sched : Sched
  pending : List (Nat × Pending)
  fired : List (Nat × Nat)
  sent : List SentMsg
deriving Repr, DecidableEq

/-- send_reminder(task_id, user_id, title) in bot.py: re-read the task
from the store; if it is absent or is_done, return without sending;
otherwise send the reminder message. -/
def send_reminder (db : Db) (task_id user_id : Nat) (title : String) : Option SentMsg :=
  match get_task db task_id user_id with
  | none => none
  | some t => if t.is_done then none else some ⟨user_id, title, t.due_date⟩

/-- Running the send_reminder coroutine against the current state:
the invocation is always recorded in fired, and the message (if the
fire-time check passes) is appended to sent. -/
def run_send_reminder (st : BotState) (task_id user_id : Nat) (title : String) : BotState :=
  { st with fired := st.fired ++ [(task_id, user_id)],
            sent := st.sent ++ (send_reminder st.db task_id user_id title).toList }

/-- The job id scheme of bot.py: reminder_taskId when the suffix is
empty, reminder_taskId_suffix otherwise. -/
def job_id_for (task_id : Nat) (suffix : String) : String :=
  if suffix = "" then "reminder_" ++ toString task_id
  else "reminder_" ++ toString task_id ++ "_" ++ suffix

/-- schedule_single_reminder(task_id, user_id, title, remind_at, suffix):
remove an existing job with the same id, then either fire immediately
(remind_at already past) or install a DateTrigger job. -/
def schedule_single_reminder (st : BotState) (now : Int) (task_id user_id : Nat)
    (title : String) (remind_at : Int) (suffix : String) : BotState :=
  let jid := job_id_for task_id suffix
  let st1 := if (get_job st.sched jid).isSome
             then { st with sched := remove_job st.sched jid } else st
  if remind_at < now then run_send_reminder st1 task_id user_id title
  else { st1 with sched := add_job st1.sched jid ⟨remind_at, task_id, user_id, title⟩ }

/-- REMINDER_PRESETS in bot.py, as the association list of the dict. -/
def REMINDER_PRESETS : List (String × List Nat) :=
  [("event", [1440, 120, 30]), ("meeting", [60, 15]), ("errand", [30]), ("default", [30])]

/-- Dictionary lookup REMINDER_PRESETS[k] as an Option. -/
def preset_lookup (k : String) : Option (List Nat) :=
  (REMINDER_PRESETS.find? (fun p => p.1 == k)).map Prod.snd

/-- REMINDER_PRESETS.get(task_type, REMINDER_PRESETS["default"]). -/
def remind_minutes_for (task_type : String) : List Nat :=
  (preset_lookup task_type).getD ((preset_lookup "default").getD [])

/-- The loop body of schedule_smart_reminders: for i, minutes in
enumerate(remind_minutes), schedule at due - minutes with suffix str(i). -/
def schedule_list (now : Int) (task_id user_id : Nat) (title : String) (due : Int) :
    BotState → Nat → List Nat → BotState
  | st, _, [] => st
  | st, i, m :: rest =>
    schedule_list now task_id user_id title due
      (schedule_single_reminder st now task_id user_id title (due - (m : Int) * 60) (toString i))
      (i + 1) rest

/-- schedule_smart_reminders(task_id, user_id, title, due_dt, task_type). -/
def schedule_smart_reminders (st : BotState) (now : Int) (task_id user_id : Nat)
    (title : String) (due : Int) (task_type : String) : BotState :=
  schedule_list now task_id user_id title due st 0 (remind_minutes_for task_type)

/-- apscheduler remove_job: raises JobLookupError when no job with the
given id exists. -/
def apscheduler_remove_job (s : Sched) (jid : String) : Except String Sched :=
  if (s.find? (fun p => p.1 == jid)).isSome
  then .ok (s.filter (fun p => !(p.1 == jid)))
  else .error "JobLookupError"

/-- The guarded cancel used throughout bot.py: if scheduler.get_job(job_id)
then scheduler.remove_job(job_id). -/
def remove_one (s : Sched) (jid : String) : Except String Sched :=
  if (get_job s jid).isSome then apscheduler_remove_job s jid else .ok s

/-- remove_all_reminders(task_id): guarded cancel for every suffix in
the list used by bot.py. -/
def remove_all_reminders (s : Sched) (task_id : Nat) : Except String Sched :=
  ["", "0", "1", "2", "snooze"].foldlM (fun acc sfx => remove_one acc (job_id_for task_id sfx)) s

/-- Gregorian leap-year test, as in the proleptic calendar used by
datetime. -/
def is_leap (y : Nat) : Bool :=
  (y % 4 == 0 && y % 100 != 0) || (y % 400 == 0)

/-- Cumulative day counts before each month in a non-leap year. -/
def days_before_month_table : List Nat :=
  [0, 31, 59, 90, 120, 151, 181, 212, 243, 273, 304, 334]

/-- Number of days in a month of a given year. -/
def days_in_month (y m : Nat) : Nat :=
  if m == 2 then (if is_leap y then 29 else 28)
  else if m == 4 || m == 6 || m == 9 || m == 11 then 30
  else 31

/-- Days in all years before year y (proleptic Gregorian, year 1 first). -/
def days_before_year (y : Nat) : Nat :=
  let p := y - 1
  p * 365 + p / 4 - p / 100 + p / 400

/-- Proleptic-Gregorian ordinal of a calendar date, day 0001-01-01 = 1,
matching the datetime ordinal used implicitly by strptime arithmetic. -/
def to_ordinal (y m d : Nat) : Nat :=
  days_before_year y + days_before_month_table.getD (m - 1) 0 +
    (if 2 < m && is_leap y then 1 else 0) + d

/-- Splitting a character list at every occurrence of a separator,
like str.split with a one-character separator. -/
def split_on_char (c : Char) : List Char → List (List Char)
  | [] => [[]]
  | a :: rest =>
    let r := split_on_char c rest
    if a == c then [] :: r
    else
      match r with
      | [] => [[a]]
      | g :: gs => (a :: g) :: gs

/-- Reading a non-empty all-digit character list as a number, the way
strptime consumes a numeric field. -/
def digits_to_nat : List Char → Option Nat
  | [] => none
  | l =>
    if l.all Char.isDigit then
      some (l.foldl (fun n c => n * 10 + (c.toNat - 48)) 0)
    else none

/-- datetime.strptime(s, "%Y-%m-%d %H:%M") followed by conversion to an
absolute instant, in seconds; none models the ValueError raised on a
malformed date. -/
def parse_due (s : String) : Option Int :=
  match split_on_char ' ' s.data with
  | [d, tm] =>
    match split_on_char '-' d, split_on_char ':' tm with
    | [ys, ms, ds], [hs, mins] =>
      match digits_to_nat ys, digits_to_nat ms, digits_to_nat ds,
            digits_to_nat hs, digits_to_nat mins with
      | some y, some mo, some dd, some h, some mi =>
        if 1 ≤ y && 1 ≤ mo && mo ≤ 12 && 1 ≤ dd && dd ≤ days_in_month y mo
            && h ≤ 23 && mi ≤ 59 then
          some ((((to_ordinal y mo dd) * 24 + h) * 60 + mi) * 60)
        else none
      | _, _, _, _, _ => none
    | _, _ => none
  | _ => none

/-- One iteration of the reschedule_all loop in bot.py: parse the stored
due_date (ValueError on a malformed one), compute remind_at from the
persisted remind_before, and schedule under suffix 0: at remind_at when
it is still in the future, at now + 10 seconds when only due is, and
not at all otherwise. -/
def reschedule_one (now : Int) (st : BotState) (t : Task) : BotState × Option String :=
  match parse_due t.due_date with
  | none => (st, some "ValueError")
  | some due =>
    let remind_at := due - (t.remind_before : Int) * 60
    if remind_at > now then
      (schedule_single_reminder st now t.id t.user_id t.title remind_at "0", none)
    else if due > now then
      (schedule_single_reminder st now t.id t.user_id t.title (now + 10) "0", none)
    else (st, none)

/-- The loop of reschedule_all, stopping at the first raised exception. -/
def reschedule_loop (now : Int) : BotState → List Task → BotState × Option String
  | st, [] => (st, none)
  | st, t :: rest =>
    match reschedule_one now st t with
    | (st1, none) => reschedule_loop now st1 rest
    | (st1, some e) => (st1, some e)

/-- reschedule_all: iterate over db.get_all_active_tasks(). -/
def reschedule_all (now : Int) (st : BotState) : BotState × Option String :=
  reschedule_loop now st (get_all_active_tasks st.db)

/-- The key set of the CATEGORIES dict in bot.py. -/
def CATEGORIES_keys : List String :=
  ["work", "home", "hobby", "ai", "finance", "health", "education", "travel", "social", "personal"]

/-- The parameters of db.add_task in db.py, paired with whether each is
required (has no default value). -/
def add_task_params : List (String × Bool) :=
  [("user_id", true), ("title", true), ("due_date", true),
   ("original_text", false), ("remind_before", false)]

/-- The keyword-argument names used at the db.add_task call site inside
save_and_confirm_task in bot.py.  Note the keyword category, which
db.add_task does not declare. -/
def save_call_kwargs : List String :=
  ["user_id", "title", "due_date", "category", "original_text", "remind_before"]

/-- Python keyword-call binding: the call succeeds exactly when every
keyword names a declared parameter and every required parameter is
supplied; otherwise the call raises TypeError. -/
def kwcall_ok (params : List (String × Bool)) (kwargs : List String) : Bool :=
  kwargs.all (fun k => params.any (fun p => p.1 == k)) &&
  params.all (fun p => !p.2 || kwargs.contains p.1)

/-- save_and_confirm_task in bot.py: resolve the category to a known key,
look up the reminder profile, call db.add_task with the keyword
arguments of the source call site (raising TypeError when the binding
fails), then parse the due date and run the smart planner.  The second
component records a raised exception. -/
def save_and_confirm_task (st : BotState) (now : Int) (user_id : Nat)
    (title due_date category task_type original_text : String) : BotState × Option String :=
  let _category := if CATEGORIES_keys.contains category then category else "personal"
  let remind_minutes := remind_minutes_for task_type
  if kwcall_ok add_task_params save_call_kwargs then
    let pr := add_task st.db user_id title due_date original_text (remind_minutes.headD 30)
    let st1 := { st with db := pr.1 }
    match parse_due due_date with
    | none => (st1, some "ValueError")
    | some due =>
      (schedule_smart_reminders st1 now pr.2 user_id title due task_type, none)
  else (st, some "TypeError")

/-- The structured output of the classifier for a create intent, with
every field the handler reads; absent JSON keys are none. -/
structure Parsed where
  intent : String
  title : Option String := none
  due_date : Option String := none
  category : Option String := none
  task_type : Option String := none
  time_specified : Option Bool := none
  task_ids : List Nat := []
deriving Repr, DecidableEq

/-- Assignment pending_tasks[user_id] = draft. -/
def upsert_pending (l : List (Nat × Pending)) (uid : Nat) (p : Pending) : List (Nat × Pending) :=
  (uid, p) :: l.filter (fun q => !(q.1 == uid))

/-- Lookup pending_tasks.get(user_id). -/
def lookup_pending (l : List (Nat × Pending)) (uid : Nat) : Option Pending :=
  (l.find? (fun q => q.1 == uid)).map Prod.snd

/-- pending_tasks.pop(user_id), state part. -/
def pop_pending (l : List (Nat × Pending)) (uid : Nat) : List (Nat × Pending) :=
  l.filter (fun q => !(q.1 == uid))

/-- The create-intent branch of handle_text in bot.py: reject a missing
or empty title or due_date with a restate message (no state change),
default the category, task_type and time_specified fields, and either
store a pending draft and show the time menu (time unspecified) or go
straight to save_and_confirm_task. -/
def handle_create (st : BotState) (now : Int) (user_id : Nat) (user_text : String)
    (p : Parsed) : BotState × Option String :=
  let title := p.title.getD ""
  let due_date := p.due_date.getD ""
  if title == "" || due_date == "" then (st, none)
  else
    let category0 := p.category.getD "personal"
    let task_type := p.task_type.getD "default"
    let time_specified := p.time_specified.getD true
    let category := if CATEGORIES_keys.contains category0 then category0 else "personal"
    if !time_specified then
      let date_part := String.mk ((split_on_char ' ' due_date.data).headD [])
      ({ st with pending :=
          upsert_pending st.pending user_id ⟨title, date_part, category, task_type, user_text⟩ },
       none)
    else
      save_and_confirm_task st now user_id title due_date category task_type user_text

/-- Python format f-02d, two-digit zero padding. -/
def pad2 (n : Nat) : String :=
  if n < 10 then "0" ++ toString n else toString n

/-- cb_time_select in bot.py: with no pending draft answer and return;
on time:custom ask for free text; otherwise split the callback data on
colons, read hour and optional minute, pop the draft, compose the due
date from the stored date part, and save. -/
def cb_time_select (st : BotState) (now : Int) (user_id : Nat) (data : String) :
    BotState × Option String :=
  match lookup_pending st.pending user_id with
  | none => (st, none)
  | some pd =>
    if data == "time:custom" then (st, none)
    else
      let parts := split_on_char ':' data.data
      match parts.get? 1 with
      | none => (st, some "IndexError")
      | some hs =>
        match digits_to_nat hs with
        | none => (st, some "ValueError")
        | some hour =>
          match (if parts.length > 2 then digits_to_nat (parts.getD 2 []) else some 0) with
          | none => (st, some "ValueError")
          | some minute =>
            let st1 := { st with pending := pop_pending st.pending user_id }
            let due_date := pd.date ++ " " ++ pad2 hour ++ ":" ++ pad2 minute
            save_and_confirm_task st1 now user_id pd.title due_date pd.category pd.task_type
              pd.original_text

/-- The regular expression of the custom-time path in handle_text:
one or two digits, a colon or dot, exactly two digits, nothing else. -/
def match_time (s : String) : Option (Nat × Nat) :=
  match s.data with
  | [h1, sep, m1, m2] =>
    if h1.isDigit && (sep == ':' || sep == '.') && m1.isDigit && m2.isDigit then
      some (h1.toNat - 48, (m1.toNat - 48) * 10 + (m2.toNat - 48))
    else none
  | [h1, h2, sep, m1, m2] =>
    if h1.isDigit && h2.isDigit && (sep == ':' || sep == '.') && m1.isDigit && m2.isDigit then
      some ((h1.toNat - 48) * 10 + (h2.toNat - 48), (m1.toNat - 48) * 10 + (m2.toNat - 48))
    else none
  | _ => none

/-- The custom-time interception at the top of handle_text: when the
user has a pending draft and the text matches the time pattern within
range, pop the draft, compose the due date and save; none means the
message falls through to ordinary intent handling. -/
def handle_pending_text (st : BotState) (now : Int) (user_id : Nat) (text : String) :
    Option (BotState × Option String) :=
  match lookup_pending st.pending user_id with
  | none => none
  | some pd =>
    match match_time text with
    | none => none
    | some hm =>
      if hm.1 ≤ 23 && hm.2 ≤ 59 then
        let st1 := { st with pending := pop_pending st.pending user_id }
        let due_date := pd.date ++ " " ++ pad2 hm.1 ++ ":" ++ pad2 hm.2
        some (save_and_confirm_task st1 now user_id pd.title due_date pd.category pd.task_type
          pd.original_text)
      else none

/-- The module-level functions defined in db.py. -/
def db_module_functions : List String :=
  ["init", "ensure_user", "add_task", "get_task", "get_active_tasks",
   "get_done_tasks", "get_all_active_tasks", "mark_done", "clear_done_tasks"]

/-- The delete-intent branch of handle_text: for each task id, re-read
the task scoped to the owner; a missing task is skipped; for an
existing task bot.py calls db.delete_task, an attribute that db.py
never defines, so the attribute lookup raises AttributeError before
any state changes. -/
def handle_delete (st : BotState) (user_id : Nat) : List Nat → BotState × Option String
  | [] => (st, none)
  | tid :: rest =>
    match get_task st.db tid user_id with
    | none => handle_delete st user_id rest
    | some _ =>
      if db_module_functions.contains "delete_task" then (st, none)
      else (st, some "AttributeError")

/-- Example task used by the concrete evaluations below. -/
def exTask1 : Task := ⟨1, 7, "t", "2026-01-01 10:00", "", 30, false⟩

/-- Example state: one active task, empty scheduler, no drafts. -/
def exStC1 : BotState := ⟨[exTask1], [], [], [], []⟩

theorem append_ne_of_data_ne (a : String) {b c : String} (h : b.data ≠ c.data) :
    a ++ b ≠ a ++ c := by
  intro he
  apply h
  have hd : (a ++ b).data = (a ++ c).data := by rw [he]
  rw [String.data_append, String.data_append] at hd
  exact List.append_cancel_left hd

theorem jid_ne (task_id : Nat) {a b : String} (ha : ¬ a = "") (hb : ¬ b = "")
    (h : a.data ≠ b.data) : job_id_for task_id a ≠ job_id_for task_id b := by
  unfold job_id_for
  rw [if_neg ha, if_neg hb]
  exact append_ne_of_data_ne ("reminder_" ++ toString task_id ++ "_") h

theorem jid_beq_false (task_id : Nat) {a b : String} (ha : ¬ a = "") (hb : ¬ b = "")
    (h : a.data ≠ b.data) :
    (job_id_for task_id a == job_id_for task_id b) = false :=
  beq_eq_false_iff_ne.mpr (jid_ne task_id ha hb h)

theorem filter_beq_remove_job (s : Sched) (jid : String) :
    (remove_job s jid).filter (fun p => p.1 == jid) = [] := by
  refine List.filter_eq_nil_iff.mpr ?_
  intro p hp
  have h2 := List.of_mem_filter hp
  simp only [Bool.not_eq_true'] at h2
  simp [h2]

theorem find?_eq_none_of_get_job_none (s : Sched) (jid : String)
    (h : get_job s jid = none) : ∀ p ∈ s, ¬ (p.1 == jid) = true := by
  unfold get_job at h
  rw [Option.map_eq_none'] at h
  rw [List.find?_eq_none] at h
  exact h

theorem filter_beq_of_get_job_none (s : Sched) (jid : String)
    (h : get_job s jid = none) : s.filter (fun p => p.1 == jid) = [] :=
  List.filter_eq_nil_iff.mpr (find?_eq_none_of_get_job_none s jid h)

theorem remove_job_of_get_job_none (s : Sched) (jid : String)
    (h : get_job s jid = none) : remove_job s jid = s := by
  unfold remove_job
  refine List.filter_eq_self.mpr ?_
  intro p hp
  have := find?_eq_none_of_get_job_none s jid h p hp
  simpa using this

theorem get_job_add_job (s : Sched) (jid : String) (j : Job) :
    get_job (add_job s jid j) jid = some j := by
  simp [get_job, add_job, List.find?]

/-- C1, counterexample to the claim as stated: the example state holds one
active task with id 1.  Both calls use the same job identifier
reminder_1 (empty suffix).  Both remind_at instants (500 and 600) lie
before now = 1000, so each call takes the immediate-fire path of
schedule_single_reminder and delivers a reminder: two deliveries for the
same job identifier, produced by exactly two schedule calls with that
identifier. -/
theorem C1_two_deliveries_counterexample :
    (schedule_single_reminder (schedule_single_reminder exStC1 1000 1 7 "t" 500 "")
        1000 1 7 "t" 600 "").sent
      = [⟨7, "t", "2026-01-01 10:00"⟩, ⟨7, "t", "2026-01-01 10:00"⟩] := by
  decide

/-- C1, amended: for every job identifier, at most one scheduled job
exists after any schedule_single_reminder call: the call atomically
replaces an existing job under the same identifier (old timer removed,
new one installed) when the fire instant is not yet past, and removes it
without installing a new one when the fire instant is past (the job then
fires immediately instead); so two schedule calls with the same job
identifier never leave two scheduled jobs, although each call whose fire
instant is already past produces its own immediate delivery. -/
theorem C1_schedule_replaces_job (st : BotState) (now : Int) (tid uid : Nat)
    (title : String) (r : Int) (sfx : String) :
    (schedule_single_reminder st now tid uid title r sfx).sched.filter
        (fun p => p.1 == job_id_for tid sfx)
      = if r < now then [] else [(job_id_for tid sfx, ⟨r, tid, uid, title⟩)] := by
  simp only [schedule_single_reminder]
  by_cases hj : (get_job st.sched (job_id_for tid sfx)).isSome = true
  · rw [if_pos hj]
    by_cases hr : r < now
    · rw [if_pos hr, if_pos hr]
      exact filter_beq_remove_job st.sched (job_id_for tid sfx)
    · rw [if_neg hr, if_neg hr]
      simp only [add_job, List.filter_cons, beq_self_eq_true, if_true]
      rw [filter_beq_remove_job]
  · have hn : get_job st.sched (job_id_for tid sfx) = none :=
      Option.not_isSome_iff_eq_none.mp hj
    rw [if_neg hj]
    by_cases hr : r < now
    · rw [if_pos hr, if_pos hr]
      exact filter_beq_of_get_job_none st.sched (job_id_for tid sfx) hn
    · rw [if_neg hr, if_neg hr]
      simp only [add_job, List.filter_cons, beq_self_eq_true, if_true]
      rw [filter_beq_remove_job]

/-- C2: whenever remind_at lies strictly before now at the moment of the
schedule_single_reminder call, the reminder callback is invoked at once
(the invocation is appended to fired and its message, subject only to
the fire-time task check, to sent), and no job is left under the
identifier, so the reminder is neither dropped, deferred nor rejected. -/
theorem C2_past_due_fires_immediately (st : BotState) (now : Int) (tid uid : Nat)
    (title : String) (r : Int) (sfx : String) (h : r < now) :
    (schedule_single_reminder st now tid uid title r sfx).fired
        = st.fired ++ [(tid, uid)] ∧
    (schedule_single_reminder st now tid uid title r sfx).sent
        = st.sent ++ (send_reminder st.db tid uid title).toList ∧
    (schedule_single_reminder st now tid uid title r sfx).sched.filter
        (fun p => p.1 == job_id_for tid sfx) = [] := by
  simp only [schedule_single_reminder]
  by_cases hj : (get_job st.sched (job_id_for tid sfx)).isSome = true
  · rw [if_pos hj, if_pos h]
    exact ⟨rfl, rfl, filter_beq_remove_job st.sched (job_id_for tid sfx)⟩
  · have hn : get_job st.sched (job_id_for tid sfx) = none :=
      Option.not_isSome_iff_eq_none.mp hj
    rw [if_neg hj, if_pos h]
    exact ⟨rfl, rfl, filter_beq_of_get_job_none st.sched (job_id_for tid sfx) hn⟩

theorem C2_witness :
    (0 : Int) < 10 ∧
    ((schedule_single_reminder exStC1 10 1 7 "t" 0 "").fired
        = exStC1.fired ++ [(1, 7)] ∧
     (schedule_single_reminder exStC1 10 1 7 "t" 0 "").sent
        = exStC1.sent ++ (send_reminder exStC1.db 1 7 "t").toList ∧
     (schedule_single_reminder exStC1 10 1 7 "t" 0 "").sched.filter
        (fun p => p.1 == job_id_for 1 "") = []) :=
  ⟨by decide, C2_past_due_fires_immediately exStC1 10 1 7 "t" 0 "" (by decide)⟩

/-- C3: the fire callback re-reads the task from the store at fire time;
whenever that read yields no task or a completed one (Option.all is true
on none and tests is_done on some), no reminder message is sent. -/
theorem C3_fire_rereads_task_state (st : BotState) (tid uid : Nat) (title : String)
    (h : (get_task st.db tid uid).all Task.is_done = true) :
    (run_send_reminder st tid uid title).sent = st.sent := by
  unfold run_send_reminder send_reminder
  cases hg : get_task st.db tid uid with
  | none => simp [hg]
  | some t =>
    rw [hg] at h
    simp only [Option.all_some] at h
    simp [hg, h]

/-- Example task that has been marked done. -/
def exTaskDone : Task := ⟨2, 7, "d", "2026-01-01 10:00", "", 30, true⟩

/-- Example state holding only the completed task. -/
def exStDone : BotState := ⟨[exTaskDone], [], [], [], []⟩

theorem C3_witness :
    (get_task exStDone.db 2 7).all Task.is_done = true ∧
    (run_send_reminder exStDone 2 7 "d").sent = exStDone.sent :=
  ⟨by decide, C3_fire_rereads_task_state exStDone 2 7 "d" (by decide)⟩

theorem remind_minutes_unknown (tt : String) (h1 : tt ≠ "event") (h2 : tt ≠ "meeting")
    (h3 : tt ≠ "errand") (h4 : tt ≠ "default") : remind_minutes_for tt = [30] := by
  have b1 : (("event" : String) == tt) = false := beq_eq_false_iff_ne.mpr (Ne.symm h1)
  have b2 : (("meeting" : String) == tt) = false := beq_eq_false_iff_ne.mpr (Ne.symm h2)
  have b3 : (("errand" : String) == tt) = false := beq_eq_false_iff_ne.mpr (Ne.symm h3)
  have b4 : (("default" : String) == tt) = false := beq_eq_false_iff_ne.mpr (Ne.symm h4)
  have hfind : preset_lookup tt = none := by
    simp [preset_lookup, REMINDER_PRESETS, List.find?, b1, b2, b3, b4]
  unfold remind_minutes_for
  rw [hfind]
  decide

theorem remind_minutes_cases (tt : String) :
    remind_minutes_for tt = [1440, 120, 30] ∨ remind_minutes_for tt = [60, 15] ∨
    remind_minutes_for tt = [30] := by
  by_cases h1 : tt = "event"
  · subst h1; left; decide
  by_cases h2 : tt = "meeting"
  · subst h2; right; left; decide
  by_cases h3 : tt = "errand"
  · subst h3; right; right; decide
  by_cases h4 : tt = "default"
  · subst h4; right; right; decide
  · right; right; exact remind_minutes_unknown tt h1 h2 h3 h4

theorem schedule_single_fresh_future_sched (st : BotState) (now : Int) (tid uid : Nat)
    (title : String) (r : Int) (sfx : String)
    (hs : get_job st.sched (job_id_for tid sfx) = none) (hr : ¬ r < now) :
    (schedule_single_reminder st now tid uid title r sfx).sched
      = (job_id_for tid sfx, ⟨r, tid, uid, title⟩) :: st.sched := by
  have hns : ¬ (get_job st.sched (job_id_for tid sfx)).isSome = true := by simp [hs]
  simp only [schedule_single_reminder]
  rw [if_neg hns, if_neg hr]
  simp only [add_job]
  rw [remove_job_of_get_job_none st.sched _ hs]

theorem planner_sched_eq_event (st : BotState) (now due : Int) (tid uid : Nat)
    (title tt : String) (h0 : st.sched = [])
    (hc : remind_minutes_for tt = [1440, 120, 30]) (hf : now < due - 86400) :
    (schedule_smart_reminders st now tid uid title due tt).sched
      = [(job_id_for tid "2", ⟨due - ((30 : Nat) : Int) * 60, tid, uid, title⟩),
         (job_id_for tid "1", ⟨due - ((120 : Nat) : Int) * 60, tid, uid, title⟩),
         (job_id_for tid "0", ⟨due - ((1440 : Nat) : Int) * 60, tid, uid, title⟩)] := by
  have e01 : (job_id_for tid "0" == job_id_for tid "1") = false :=
    jid_beq_false tid (by decide) (by decide) (by decide)
  have e02 : (job_id_for tid "0" == job_id_for tid "2") = false :=
    jid_beq_false tid (by decide) (by decide) (by decide)
  have e12 : (job_id_for tid "1" == job_id_for tid "2") = false :=
    jid_beq_false tid (by decide) (by decide) (by decide)
  have f0 : ¬ due - ((1440 : Nat) : Int) * 60 < now := by omega
  have f1 : ¬ due - ((120 : Nat) : Int) * 60 < now := by omega
  have f2 : ¬ due - ((30 : Nat) : Int) * 60 < now := by omega
  have hs0 : get_job st.sched (job_id_for tid "0") = none := by
    rw [h0]; rfl
  have H1 : (schedule_single_reminder st now tid uid title
        (due - ((1440 : Nat) : Int) * 60) "0").sched
      = [(job_id_for tid "0", ⟨due - ((1440 : Nat) : Int) * 60, tid, uid, title⟩)] := by
    rw [schedule_single_fresh_future_sched st now tid uid title _ "0" hs0 f0, h0]
  have hs1 : get_job (schedule_single_reminder st now tid uid title
        (due - ((1440 : Nat) : Int) * 60) "0").sched (job_id_for tid "1") = none := by
    rw [H1]; simp [get_job, List.find?, e01]
  have H2 : (schedule_single_reminder (schedule_single_reminder st now tid uid title
        (due - ((1440 : Nat) : Int) * 60) "0") now tid uid title
        (due - ((120 : Nat) : Int) * 60) "1").sched
      = [(job_id_for tid "1", ⟨due - ((120 : Nat) : Int) * 60, tid, uid, title⟩),
         (job_id_for tid "0", ⟨due - ((1440 : Nat) : Int) * 60, tid, uid, title⟩)] := by
    rw [schedule_single_fresh_future_sched _ now tid uid title _ "1" hs1 f1, H1]
  have hs2 : get_job (schedule_single_reminder (schedule_single_reminder st now tid uid title
        (due - ((1440 : Nat) : Int) * 60) "0") now tid uid title
        (due - ((120 : Nat) : Int) * 60) "1").sched (job_id_for tid "2") = none := by
    rw [H2]; simp [get_job, List.find?, e12, e02]
  unfold schedule_smart_reminders
  rw [hc]
  show (schedule_single_reminder (schedule_single_reminder (schedule_single_reminder st now tid
      uid title (due - ((1440 : Nat) : Int) * 60) "0") now tid uid title
      (due - ((120 : Nat) : Int) * 60) "1") now tid uid title
      (due - ((30 : Nat) : Int) * 60) "2").sched = _
  rw [schedule_single_fresh_future_sched _ now tid uid title _ "2" hs2 f2, H2]

theorem planner_sched_eq_meeting (st : BotState) (now due : Int) (tid uid : Nat)
    (title tt : String) (h0 : st.sched = [])
    (hc : remind_minutes_for tt = [60, 15]) (hf : now < due - 3600) :
    (schedule_smart_reminders st now tid uid title due tt).sched
      = [(job_id_for tid "1", ⟨due - ((15 : Nat) : Int) * 60, tid, uid, title⟩),
         (job_id_for tid "0", ⟨due - ((60 : Nat) : Int) * 60, tid, uid, title⟩)] := by
  have e01 : (job_id_for tid "0" == job_id_for tid "1") = false :=
    jid_beq_false tid (by decide) (by decide) (by decide)
  have f0 : ¬ due - ((60 : Nat) : Int) * 60 < now := by omega
  have f1 : ¬ due - ((15 : Nat) : Int) * 60 < now := by omega
  have hs0 : get_job st.sched (job_id_for tid "0") = none := by
    rw [h0]; rfl
  have H1 : (schedule_single_reminder st now tid uid title
        (due - ((60 : Nat) : Int) * 60) "0").sched
      = [(job_id_for tid "0", ⟨due - ((60 : Nat) : Int) * 60, tid, uid, title⟩)] := by
    rw [schedule_single_fresh_future_sched st now tid uid title _ "0" hs0 f0, h0]
  have hs1 : get_job (schedule_single_reminder st now tid uid title
        (due - ((60 : Nat) : Int) * 60) "0").sched (job_id_for tid "1") = none := by
    rw [H1]; simp [get_job, List.find?, e01]
  unfold schedule_smart_reminders
  rw [hc]
  show (schedule_single_reminder (schedule_single_reminder st now tid uid title
      (due - ((60 : Nat) : Int) * 60) "0") now tid uid title
      (due - ((15 : Nat) : Int) * 60) "1").sched = _
  rw [schedule_single_fresh_future_sched _ now tid uid title _ "1" hs1 f1, H1]

theorem planner_sched_eq_single (st : BotState) (now due : Int) (tid uid : Nat)
    (title tt : String) (h0 : st.sched = [])
    (hc : remind_minutes_for tt = [30]) (hf : now < due - 1800) :
    (schedule_smart_reminders st now tid uid title due tt).sched
      = [(job_id_for tid "0", ⟨due - ((30 : Nat) : Int) * 60, tid, uid, title⟩)] := by
  have f0 : ¬ due - ((30 : Nat) : Int) * 60 < now := by omega
  have hs0 : get_job st.sched (job_id_for tid "0") = none := by
    rw [h0]; rfl
  unfold schedule_smart_reminders
  rw [hc]
  show (schedule_single_reminder st now tid uid title
      (due - ((30 : Nat) : Int) * 60) "0").sched = _
  rw [schedule_single_fresh_future_sched st now tid uid title _ "0" hs0 f0, h0]

/-- C4: the REMINDER_PRESETS profile is event 1440/120/30, meeting 60/15,
errand 30, default 30, any unrecognized urgency class falls back to the
default profile, and on a fresh scheduler with all offsets still in the
future the planner installs exactly one job per offset of the profile,
job index i firing at due minus offset i minutes. -/
theorem C4_planner_one_job_per_offset :
    remind_minutes_for "event" = [1440, 120, 30] ∧
    remind_minutes_for "meeting" = [60, 15] ∧
    remind_minutes_for "errand" = [30] ∧
    remind_minutes_for "default" = [30] ∧
    (∀ tt : String, tt ∉ ["event", "meeting", "errand", "default"] →
      remind_minutes_for tt = remind_minutes_for "default") ∧
    (∀ (st : BotState) (now due : Int) (tid uid : Nat) (title tt : String),
      st.sched = [] → now < due - 86400 →
      ((schedule_smart_reminders st now tid uid title due tt).sched.length
          = (remind_minutes_for tt).length ∧
       ∀ i, i < (remind_minutes_for tt).length →
         get_job (schedule_smart_reminders st now tid uid title due tt).sched
             (job_id_for tid (toString i))
           = some ⟨due - (((remind_minutes_for tt).getD i 0 : Nat) : Int) * 60, tid, uid, title⟩)) := by
  refine ⟨by decide, by decide, by decide, by decide, ?_, ?_⟩
  · intro tt hmem
    simp only [List.mem_cons, List.not_mem_nil, or_false, not_or] at hmem
    obtain ⟨h1, h2, h3, h4⟩ := hmem
    rw [remind_minutes_unknown tt h1 h2 h3 h4]
    decide
  · intro st now due tid uid title tt h0 hf
    have e10 : (job_id_for tid "1" == job_id_for tid "0") = false :=
      jid_beq_false tid (by decide) (by decide) (by decide)
    have e20 : (job_id_for tid "2" == job_id_for tid "0") = false :=
      jid_beq_false tid (by decide) (by decide) (by decide)
    have e21 : (job_id_for tid "2" == job_id_for tid "1") = false :=
      jid_beq_false tid (by decide) (by decide) (by decide)
    have t0 : job_id_for tid (toString 0) = job_id_for tid "0" := rfl
    have t1 : job_id_for tid (toString 1) = job_id_for tid "1" := rfl
    have t2 : job_id_for tid (toString 2) = job_id_for tid "2" := rfl
    obtain hc | hc | hc := remind_minutes_cases tt
    · have hs := planner_sched_eq_event st now due tid uid title tt h0 hc hf
      refine ⟨by rw [hs, hc]; rfl, ?_⟩
      intro i hi
      rw [hc] at hi
      have hi3 : i < 3 := by simpa using hi
      interval_cases i
      · rw [hs, hc, t0]
        simp [get_job, List.find?, e20, e10]
      · rw [hs, hc, t1]
        simp [get_job, List.find?, e21]
      · rw [hs, hc, t2]
        simp [get_job, List.find?]
    · have hs := planner_sched_eq_meeting st now due tid uid title tt h0 hc (by omega)
      refine ⟨by rw [hs, hc]; rfl, ?_⟩
      intro i hi
      rw [hc] at hi
      have hi2 : i < 2 := by simpa using hi
      interval_cases i
      · rw [hs, hc, t0]
        simp [get_job, List.find?, e10]
      · rw [hs, hc, t1]
        simp [get_job, List.find?]
    · have hs := planner_sched_eq_single st now due tid uid title tt h0 hc (by omega)
      refine ⟨by rw [hs, hc]; rfl, ?_⟩
      intro i hi
      rw [hc] at hi
      have hi1 : i < 1 := by simpa using hi
      interval_cases i
      · rw [hs, hc, t0]
        simp [get_job, List.find?]

/-- Example empty state used by the witnesses. -/
def exSt0 : BotState := ⟨[], [], [], [], []⟩

theorem C4_witness :
    (exSt0.sched = [] ∧ (0 : Int) < 100000 - 86400) ∧
    ((schedule_smart_reminders exSt0 0 3 7 "t" 100000 "event").sched.length
        = (remind_minutes_for "event").length ∧
     ∀ i, i < (remind_minutes_for "event").length →
       get_job (schedule_smart_reminders exSt0 0 3 7 "t" 100000 "event").sched
           (job_id_for 3 (toString i))
         = some ⟨100000 - (((remind_minutes_for "event").getD i 0 : Nat) : Int) * 60, 3, 7, "t"⟩) :=
  ⟨⟨rfl, by decide⟩,
   (C4_planner_one_job_per_offset.right.right.right.right.right)
     exSt0 0 100000 3 7 "t" "event" rfl (by decide)⟩

theorem get_job_schedule_future (st : BotState) (now : Int) (tid uid : Nat)
    (title : String) (r : Int) (sfx : String) (hr : ¬ r < now) :
    get_job (schedule_single_reminder st now tid uid title r sfx).sched (job_id_for tid sfx)
      = some ⟨r, tid, uid, title⟩ := by
  simp only [schedule_single_reminder]
  by_cases hj : (get_job st.sched (job_id_for tid sfx)).isSome = true
  · rw [if_pos hj, if_neg hr]
    exact get_job_add_job _ _ _
  · rw [if_neg hj, if_neg hr]
    exact get_job_add_job _ _ _

/-- C7: startup recovery reads exactly the stored tasks with is_done
false; for each such task with a parseable due_date, when due minus the
persisted remind_before is still in the future the reminder is scheduled
at exactly that instant under job index 0; when that instant is not in
the future but due still is, a job is installed under index 0 at
now + 10 seconds, a strictly future instant, with no exception; and when
due itself is not in the future, nothing is scheduled. -/
theorem C7_startup_recovery (now : Int) (st : BotState) (t : Task) (due : Int)
    (hp : parse_due t.due_date = some due) :
    (∀ db : Db, get_all_active_tasks db = db.filter (fun x => !x.is_done)) ∧
    (∀ st2 : BotState, reschedule_all now st2
        = reschedule_loop now st2 (get_all_active_tasks st2.db)) ∧
    (due - (t.remind_before : Int) * 60 > now →
      reschedule_one now st t
        = (schedule_single_reminder st now t.id t.user_id t.title
            (due - (t.remind_before : Int) * 60) "0", none) ∧
      get_job (reschedule_one now st t).1.sched (job_id_for t.id "0")
        = some ⟨due - (t.remind_before : Int) * 60, t.id, t.user_id, t.title⟩) ∧
    (¬ due - (t.remind_before : Int) * 60 > now → due > now →
      get_job (reschedule_one now st t).1.sched (job_id_for t.id "0")
        = some ⟨now + 10, t.id, t.user_id, t.title⟩ ∧
      now < now + 10 ∧ (reschedule_one now st t).2 = none) ∧
    (¬ due > now → reschedule_one now st t = (st, none)) := by
  refine ⟨fun db => rfl, fun st2 => rfl, ?_, ?_, ?_⟩
  · intro h1
    have heq : reschedule_one now st t
        = (schedule_single_reminder st now t.id t.user_id t.title
            (due - (t.remind_before : Int) * 60) "0", none) := by
      unfold reschedule_one
      rw [hp]
      show (if due - (t.remind_before : Int) * 60 > now then
          (schedule_single_reminder st now t.id t.user_id t.title
            (due - (t.remind_before : Int) * 60) "0", none)
        else if due > now then
          (schedule_single_reminder st now t.id t.user_id t.title (now + 10) "0", none)
        else (st, none)) = _
      rw [if_pos h1]
    refine ⟨heq, ?_⟩
    rw [heq]
    exact get_job_schedule_future st now t.id t.user_id t.title _ "0" (by omega)
  · intro h1 h2
    have heq : reschedule_one now st t
        = (schedule_single_reminder st now t.id t.user_id t.title (now + 10) "0", none) := by
      unfold reschedule_one
      rw [hp]
      show (if due - (t.remind_before : Int) * 60 > now then
          (schedule_single_reminder st now t.id t.user_id t.title
            (due - (t.remind_before : Int) * 60) "0", none)
        else if due > now then
          (schedule_single_reminder st now t.id t.user_id t.title (now + 10) "0", none)
        else (st, none)) = _
      rw [if_neg h1, if_pos h2]
    rw [heq]
    refine ⟨?_, by omega, rfl⟩
    exact get_job_schedule_future st now t.id t.user_id t.title _ "0" (by omega)
  · intro h3
    have h1 : ¬ due - (t.remind_before : Int) * 60 > now := by omega
    unfold reschedule_one
    rw [hp]
    show (if due - (t.remind_before : Int) * 60 > now then
        (schedule_single_reminder st now t.id t.user_id t.title
          (due - (t.remind_before : Int) * 60) "0", none)
      else if due > now then
        (schedule_single_reminder st now t.id t.user_id t.title (now + 10) "0", none)
      else (st, none)) = _
    rw [if_neg h1, if_neg h3]

/-- Example stored active task whose due_date parses to 63903049200
seconds (2026-01-02 15:00). -/
def exTask7 : Task := ⟨1, 7, "t", "2026-01-02 15:00", "", 30, false⟩

theorem C7_witness :
    parse_due exTask7.due_date = some 63903049200 ∧
    63903049200 - (exTask7.remind_before : Int) * 60 > 0 ∧
    get_job (reschedule_one 0 exSt0 exTask7).1.sched (job_id_for exTask7.id "0")
      = some ⟨63903049200 - (exTask7.remind_before : Int) * 60,
              exTask7.id, exTask7.user_id, exTask7.title⟩ :=
  ⟨by decide, by decide,
   ((C7_startup_recovery 0 exSt0 exTask7 63903049200 (by decide)).2.2.1 (by decide)).2⟩

/-- C5, code bug: save_and_confirm_task in bot.py always raises
TypeError, because its call to db.add_task passes the keyword argument
category while db.add_task in db.py declares no such parameter (and the
tasks table has no such column); hence no task created through this
pipeline is ever stored, with or without a valid category. -/
theorem C5_save_task_raises_TypeError (st : BotState) (now : Int) (user_id : Nat)
    (title due_date category task_type original_text : String) :
    save_and_confirm_task st now user_id title due_date category task_type original_text
      = (st, some "TypeError") ∧
    kwcall_ok add_task_params save_call_kwargs = false ∧
    save_call_kwargs.contains "category" = true ∧
    (add_task_params.map Prod.fst).contains "category" = false := by
  have hk : ¬ kwcall_ok add_task_params save_call_kwargs = true := by decide
  refine ⟨?_, by decide, by decide, by decide⟩
  simp only [save_and_confirm_task]
  rw [if_neg hk]

/-- Create intent resolved by the classifier with time_specified false. -/
def exParsedNoTime : Parsed :=
  { intent := "create", title := some "buy milk", due_date := some "2026-01-03 09:00",
    category := some "home", task_type := some "errand", time_specified := some false }

/-- The state after the draft for owner 7 has been stored. -/
def exStDraft : BotState :=
  { exSt0 with pending := [(7, ⟨"buy milk", "2026-01-03", "home", "errand", "milk tomorrow"⟩)] }

/-- C6, code bug: with time_specified false no task is created and no
reminder scheduled (only a draft holding the date part is stored), as
the claim says; but resolving the time, through the 15:00 button or the
free text 15:00, composes the due date 2026-01-03 15:00 and then raises
TypeError inside save_and_confirm_task (db.add_task has no category
parameter), popping the draft and creating no task at all. -/
theorem C6_time_resolution_raises_TypeError :
    handle_create exSt0 0 7 "milk tomorrow" exParsedNoTime = (exStDraft, none) ∧
    exStDraft.db = [] ∧ exStDraft.sched = [] ∧
    lookup_pending exStDraft.pending 7
      = some ⟨"buy milk", "2026-01-03", "home", "errand", "milk tomorrow"⟩ ∧
    ("2026-01-03" ++ " " ++ pad2 15 ++ ":" ++ pad2 0) = "2026-01-03 15:00" ∧
    cb_time_select exStDraft 0 7 "time:15:0"
      = ({ exStDraft with pending := [] }, some "TypeError") ∧
    handle_pending_text exStDraft 0 7 "15:00"
      = some ({ exStDraft with pending := [] }, some "TypeError") := by
  decide

/-- Example state with one task owned by user 7, for the delete intent. -/
def exStC9 : BotState := ⟨[⟨1, 7, "call mom", "2026-01-02 15:00", "", 30, false⟩], [], [], [], []⟩

/-- C9, code bug: db.py defines no delete_task function, so the delete
intent of handle_text, which calls db.delete_task for each named
existing task, raises AttributeError on the first existing task and
removes nothing from the store; the claim suites the spec contract
(deleteTask provided and used) that the code does not implement. -/
theorem C9_delete_task_missing :
    handle_delete exStC9 7 [1] = (exStC9, some "AttributeError") ∧
    db_module_functions.contains "delete_task" = false ∧
    (get_task exStC9.db 1 7).isSome = true := by
  decide

/-- Create intent whose classifier output omits time_specified. -/
def exParsedNoTS : Parsed :=
  { intent := "create", title := some "buy milk", due_date := some "2026-01-03 09:00",
    category := some "home", task_type := some "errand", time_specified := none }

/-- C10, code bug: when the classifier output omits time_specified
entirely, handle_text defaults it to true and never enters the
time-disambiguation flow (no draft stored, no time menu), exactly as
claimed; but the immediate save path then raises TypeError in
db.add_task, so the task is not created and no reminder is scheduled. -/
theorem C10_omitted_time_specified_defaults_true :
    exParsedNoTS.time_specified = none ∧
    exParsedNoTS.time_specified.getD true = true ∧
    handle_create exSt0 0 7 "buy milk tomorrow" exParsedNoTS = (exSt0, some "TypeError") ∧
    (handle_create exSt0 0 7 "buy milk tomorrow" exParsedNoTS).1.pending = [] := by
  decide

theorem mem_sched_schedule_single {p : String × Job} (st : BotState) (now : Int)
    (tid uid : Nat) (title : String) (r : Int) (sfx : String)
    (hp : p ∈ (schedule_single_reminder st now tid uid title r sfx).sched) :
    p ∈ st.sched ∨ p = (job_id_for tid sfx, ⟨r, tid, uid, title⟩) := by
  revert hp
  simp only [schedule_single_reminder, run_send_reminder, add_job]
  by_cases hj : (get_job st.sched (job_id_for tid sfx)).isSome = true
  · rw [if_pos hj]
    by_cases hr : r < now
    · rw [if_pos hr]
      intro hp
      exact Or.inl (List.mem_of_mem_filter hp)
    · rw [if_neg hr]
      intro hp
      rcases List.mem_cons.mp hp with h | h
      · exact Or.inr h
      · exact Or.inl (List.mem_of_mem_filter (List.mem_of_mem_filter h))
  · rw [if_neg hj]
    by_cases hr : r < now
    · rw [if_pos hr]
      intro hp
      exact Or.inl hp
    · rw [if_neg hr]
      intro hp
      rcases List.mem_cons.mp hp with h | h
      · exact Or.inr h
      · exact Or.inl (List.mem_of_mem_filter h)

theorem mem_sched_schedule_list {p : String × Job} (now : Int) (tid uid : Nat)
    (title : String) (due : Int) (l : List Nat) :
    ∀ (i : Nat) (st : BotState),
      p ∈ (schedule_list now tid uid title due st i l).sched →
      p ∈ st.sched ∨ ∃ j, i ≤ j ∧ j < i + l.length ∧ p.1 = job_id_for tid (toString j) := by
  induction l with
  | nil =>
    intro i st hp
    exact Or.inl hp
  | cons m rest ih =>
    intro i st hp
    simp only [schedule_list] at hp
    have h1 := ih (i + 1)
      (schedule_single_reminder st now tid uid title (due - (m : Int) * 60) (toString i)) hp
    rcases h1 with h1 | ⟨j, hj1, hj2, hj3⟩
    · rcases mem_sched_schedule_single st now tid uid title _ (toString i) h1 with h2 | h2
      · exact Or.inl h2
      · refine Or.inr ⟨i, le_refl i, by simp, ?_⟩
        rw [h2]
    · refine Or.inr ⟨j, by omega, ?_, hj3⟩
      simp only [List.length_cons]
      omega

theorem remove_one_ok (s : Sched) (jid : String) :
    remove_one s jid
      = .ok (if (get_job s jid).isSome then s.filter (fun q => !(q.1 == jid)) else s) := by
  have heq : (s.find? (fun p => p.1 == jid)).isSome = (get_job s jid).isSome := by
    simp [get_job, Option.isSome_map']
  unfold remove_one apscheduler_remove_job
  by_cases hj : (get_job s jid).isSome = true
  · rw [if_pos hj, if_pos (heq.trans hj), if_pos hj]
  · rw [if_neg hj, if_neg hj]

theorem mem_remove_if (s : Sched) (jid : String) {p : String × Job}
    (hp : p ∈ (if (get_job s jid).isSome then s.filter (fun q => !(q.1 == jid)) else s)) :
    p ∈ s ∧ (p.1 == jid) = false := by
  by_cases hj : (get_job s jid).isSome = true
  · rw [if_pos hj] at hp
    refine ⟨List.mem_of_mem_filter hp, ?_⟩
    have h2 := List.of_mem_filter hp
    simpa using h2
  · rw [if_neg hj] at hp
    have hn : get_job s jid = none := Option.not_isSome_iff_eq_none.mp hj
    refine ⟨hp, ?_⟩
    have h2 := find?_eq_none_of_get_job_none s jid hn p hp
    simpa using h2

theorem remove_fold_ok (tid : Nat) (l : List String) :
    ∀ s : Sched, ∃ s1,
      l.foldlM (fun acc sfx => remove_one acc (job_id_for tid sfx)) s = Except.ok s1 ∧
      ∀ p ∈ s1, p ∈ s ∧ ∀ sfx ∈ l, (p.1 == job_id_for tid sfx) = false := by
  induction l with
  | nil =>
    intro s
    refine ⟨s, rfl, fun p hp => ⟨hp, fun sfx hs => absurd hs (List.not_mem_nil sfx)⟩⟩
  | cons a rest ih =>
    intro s
    obtain ⟨s1, h1, h2⟩ := ih (if (get_job s (job_id_for tid a)).isSome
      then s.filter (fun q => !(q.1 == job_id_for tid a)) else s)
    refine ⟨s1, ?_, ?_⟩
    · rw [List.foldlM_cons, remove_one_ok]
      exact h1
    · intro p hp
      obtain ⟨hmem, hall⟩ := h2 p hp
      obtain ⟨hmem2, hbeq⟩ := mem_remove_if s (job_id_for tid a) hmem
      refine ⟨hmem2, ?_⟩
      intro sfx hs
      rcases List.mem_cons.mp hs with hs1 | hs2
      · rw [hs1]
        exact hbeq
      · exact hall sfx hs2

theorem remove_all_ok (s : Sched) (tid : Nat) :
    ∃ s1, remove_all_reminders s tid = .ok s1 ∧
      ∀ p ∈ s1, p ∈ s ∧
        ∀ sfx ∈ ["", "0", "1", "2", "snooze"], (p.1 == job_id_for tid sfx) = false :=
  remove_fold_ok tid ["", "0", "1", "2", "snooze"] s

theorem remind_minutes_length_le (tt : String) : (remind_minutes_for tt).length ≤ 3 := by
  rcases remind_minutes_cases tt with hc | hc | hc <;> simp [hc]

/-- C8: the guarded cancel is idempotent: cancelling a job identifier
that does not exist returns without error and leaves the scheduler
unchanged; and for any urgency class, after planReminders for a task
(and optionally a snooze job for it) on a scheduler holding no job for
that task, remove_all_reminders succeeds and leaves zero jobs whose
payload references the task. -/
theorem C8_cancel_all_leaves_no_jobs :
    (∀ (s : Sched) (jid : String), get_job s jid = none → remove_one s jid = Except.ok s) ∧
    (∀ (st : BotState) (now due snooze_at : Int) (tid uid : Nat)
        (title title2 tt : String) (dosnooze : Bool),
      (∀ p ∈ st.sched, p.2.task_id ≠ tid) →
      ∃ s1,
        remove_all_reminders
            (if dosnooze then
              (schedule_single_reminder (schedule_smart_reminders st now tid uid title due tt)
                now tid uid title2 snooze_at "snooze").sched
             else (schedule_smart_reminders st now tid uid title due tt).sched) tid
          = Except.ok s1 ∧
        ∀ p ∈ s1, p.2.task_id ≠ tid) := by
  constructor
  · intro s jid h
    rw [remove_one_ok]
    rw [if_neg (by simp [h])]
  · intro st now due snooze_at tid uid title title2 tt dosnooze hst
    have hplan : ∀ q : String × Job,
        q ∈ (schedule_smart_reminders st now tid uid title due tt).sched →
        q ∈ st.sched ∨ ∃ j, j ≤ 2 ∧ q.1 = job_id_for tid (toString j) := by
      intro q hq
      have h2 := mem_sched_schedule_list now tid uid title due (remind_minutes_for tt) 0 st hq
      rcases h2 with h2 | ⟨j, hj1, hj2, hj3⟩
      · exact Or.inl h2
      · refine Or.inr ⟨j, ?_, hj3⟩
        have h3 := remind_minutes_length_le tt
        omega
    obtain ⟨s1, hok, hmem⟩ := remove_all_ok
      (if dosnooze then
        (schedule_single_reminder (schedule_smart_reminders st now tid uid title due tt)
          now tid uid title2 snooze_at "snooze").sched
       else (schedule_smart_reminders st now tid uid title due tt).sched) tid
    refine ⟨s1, hok, ?_⟩
    intro p hp
    obtain ⟨hpin, hall⟩ := hmem p hp
    have hfromplan : p ∈ st.sched ∨ ∃ j, j ≤ 2 ∧ p.1 = job_id_for tid (toString j) := by
      by_cases hd : dosnooze = true
      · rw [if_pos hd] at hpin
        rcases mem_sched_schedule_single _ now tid uid title2 snooze_at "snooze" hpin with h4 | h4
        · exact hplan p h4
        · exfalso
          have hb := hall "snooze" (by simp)
          rw [h4] at hb
          simp at hb
      · rw [if_neg hd] at hpin
        exact hplan p hpin
    rcases hfromplan with h5 | ⟨j, hj, hjid⟩
    · exact hst p h5
    · exfalso
      interval_cases j
      · have hb := hall "0" (by simp)
        have ht : job_id_for tid (toString 0) = job_id_for tid "0" := rfl
        rw [hjid, ht] at hb
        simp at hb
      · have hb := hall "1" (by simp)
        have ht : job_id_for tid (toString 1) = job_id_for tid "1" := rfl
        rw [hjid, ht] at hb
        simp at hb
      · have hb := hall "2" (by simp)
        have ht : job_id_for tid (toString 2) = job_id_for tid "2" := rfl
        rw [hjid, ht] at hb
        simp at hb

theorem C8_witness :
    (∀ p ∈ exSt0.sched, p.2.task_id ≠ 3) ∧
    ∃ s1,
      remove_all_reminders
          (if true then
            (schedule_single_reminder (schedule_smart_reminders exSt0 0 3 7 "t" 100000 "event")
              0 3 7 "t2" 50 "snooze").sched
           else (schedule_smart_reminders exSt0 0 3 7 "t" 100000 "event").sched) 3
        = Except.ok s1 ∧
      ∀ p ∈ s1, p.2.task_id ≠ 3 :=
  ⟨by simp [exSt0],
   C8_cancel_all_leaves_no_jobs.2 exSt0 0 100000 50 3 7 "t" "t2" "event" true
     (by simp [exSt0])⟩

end TaskBot
